import Mathlib

/-!
Shallow embedding of the CupCakeNFT-Marketplace front-end logic:

* the listing reconciler of `src/components/RecentlyListed.tsx`
  (the `useMemo` body of `useRecentlyListNFTs`, lines 105-148),
* the compliance route of `src/app/api/compliance/route.ts` (`POST`),
* the home-page compliance gate (`Home` / `checkCompliance` of the
  unnamed page component), modelled as a small event-driven state machine.

Strings are opaque; JavaScript truthiness of a string is emptiness,
and an absent JSON field is an `Option` that is `none`.
-/

namespace CupCake

/-- An `ItemListed` node as declared by the `NFTItem` interface and fetched
by the GraphQL query (all eight fields are strings). -/
structure NFTItem where
  rindexerId : String
  seller : String
  nftAddress : String
  price : String
  tokenId : String
  contractAddress : String
  txHash : String
  blockNumber : String
deriving DecidableEq, Repr

/-- A bought or cancelled node: only `nftAddress` and `tokenId` are fetched
and used (the `BoughtCancelled` interface). -/
structure BoughtCancelled where
  nftAddress : String
  tokenId : String
deriving DecidableEq, Repr

/-- The display record produced by the final `map` of the reconciler:
`\x7b tokenId, contractAddress: nft.nftAddress, price, seller \x7d`. -/
structure ActiveListing where
  tokenId : String
  contractAddress : String
  price : String
  seller : String
deriving DecidableEq, Repr

/-- The string key used throughout: `addr ++ "-" ++ tokenId`
(the template literal `${item.nftAddress}-${item.tokenId}`). -/
def mkKey (addr tokenId : String) : String := addr ++ "-" ++ tokenId

/-- The `boughtNFTs` / `cancelledNFTs` set construction: a `forEach` that
adds `mkKey` of every event whose two fields are both truthy (non-empty).
Modelled as a list used only through membership. -/
def terminatedKeys (events : List BoughtCancelled) : List String :=
  (events.filter (fun e => !(e.nftAddress == "") && !(e.tokenId == ""))).map
    (fun e => mkKey e.nftAddress e.tokenId)

/-- The filter body of `activeNfts`: drop an item with a falsy `nftAddress`
or `tokenId`, otherwise keep it when its key is in neither set. -/
def keepListing (boughtNFTs cancelledNFTs : List String) (item : NFTItem) : Bool :=
  if item.nftAddress == "" || item.tokenId == "" then false
  else
    !(boughtNFTs.contains (mkKey item.nftAddress item.tokenId)) &&
    !(cancelledNFTs.contains (mkKey item.nftAddress item.tokenId))

/-- `activeNfts`: the listed nodes surviving the termination filter. -/
def survivors (listed : List NFTItem) (bought cancelled : List BoughtCancelled) :
    List NFTItem :=
  listed.filter (keepListing (terminatedKeys bought) (terminatedKeys cancelled))

/-- The projection of the final `map`: `nftAddress` is renamed to
`contractAddress` in the display record. -/
def project (i : NFTItem) : ActiveListing :=
  { tokenId := i.tokenId, contractAddress := i.nftAddress,
    price := i.price, seller := i.seller }

/-- The reconciler on three present collections: filter, `slice(0, 100)`,
then project (lines 129-145 of `RecentlyListed.tsx`). -/
def reconcile (listed : List NFTItem) (bought cancelled : List BoughtCancelled) :
    List ActiveListing :=
  ((survivors listed bought cancelled).take 100).map project

/-- The `data.data` object of the GraphQL response; each collection may be
absent at runtime (the code guards two of the three with optional chaining). -/
structure NFTQueryData where
  allItemListeds : Option (List NFTItem)
  allItemBoughts : Option (List BoughtCancelled)
  allItemCanceleds : Option (List BoughtCancelled)
deriving Repr

/-- The whole `useMemo` body of `useRecentlyListNFTs`. `data` absent returns
`[]`; `allItemBoughts?.` and `allItemCanceleds?.` short-circuit when absent,
leaving the corresponding set empty; but `data.data.allItemListeds.nodes`
has no optional chaining, so an absent listed collection raises a
`TypeError`, modelled as `Except.error`. -/
def nftDataList (data : Option NFTQueryData) : Except String (List ActiveListing) :=
  match data with
  | none => .ok []
  | some d =>
    let boughtNFTs := terminatedKeys (d.allItemBoughts.getD [])
    let cancelledNFTs := terminatedKeys (d.allItemCanceleds.getD [])
    match d.allItemListeds with
    | none => .error "TypeError: reading nodes of undefined"
    | some listed =>
        .ok (((listed.filter (keepListing boughtNFTs cancelledNFTs)).take 100).map
          project)

/-! The compliance route, `src/app/api/compliance/route.ts`. -/

/-- A JSON body returned by the screening provider; only its `result` and
`message` fields are ever read by the route. -/
structure CircleBody where
  result : Option String
  message : Option String
deriving DecidableEq, Repr

/-- Every observable outcome of the `fetch` to the Circle API:
the transport may fail (`fetch` rejects), or a response arrives with an HTTP
status and a body whose `.json()` either rejects (outer `none`), parses to
JSON `null` (inner `none`), or parses to an object. -/
inductive CircleOutcome where
  | transportError : CircleOutcome
  | response (status : Nat) (body : Option (Option CircleBody)) : CircleOutcome
deriving DecidableEq, Repr

/-- Server environment: the raw strings of `ENABLE_COMPLIANCE_CHECK` and
`CIRCLE_API_KEY`, each possibly unset. -/
structure RouteEnv where
  enableComplianceCheck : Option String
  circleApiKey : Option String
deriving DecidableEq, Repr

/-- JavaScript truthiness of a possibly-absent string: falsy when absent or
empty. -/
def strTruthy (s : Option String) : Bool :=
  match s with
  | none => false
  | some v => !(v == "")

/-- `response.ok` of the Fetch API: status in the 2xx range. -/
def fetchOk (status : Nat) : Bool := 200 ≤ status && status < 300

/-- The JSON payload the route sends to the client. Error responses carry an
`error` string and no `isApproved`; success responses carry `isApproved` and
the raw provider payload in `dataField`; the non-2xx propagation path also
attaches `details`. -/
structure ApiResponse where
  status : Nat
  success : Bool
  isApproved : Option Bool
  error : Option String
  dataField : Option (Option CircleBody)
  details : Option (Option CircleBody)
deriving DecidableEq, Repr

/-- The `POST` handler. `requestBody` is the outcome of `request.json()`
(`none` when it rejects) paired with the `address` field of the parsed body
(`none` when absent). `circle` is the outcome of the provider call; the
returned `Bool` records whether that call was made at all. Branches, in
source order: the outer catch for a rejecting `request.json()`; the 400 for
a falsy address; the feature-flag bypass; the 500 for a falsy API key; then
the provider call, whose rejection, rejecting `.json()`, non-`ok` status
(including the `responseData.message` TypeError on a `null` body, swallowed
by the outer catch) and `ok` path each map to their response. -/
def POST (env : RouteEnv) (requestBody : Option (Option String))
    (circle : CircleOutcome) : ApiResponse × Bool :=
  match requestBody with
  | none =>
      ({ status := 500, success := false, isApproved := none,
         error := some "Internal server error", dataField := none,
         details := none }, false)
  | some address =>
    if !(strTruthy address) then
      ({ status := 400, success := false, isApproved := none,
         error := some "Address is required", dataField := none,
         details := none }, false)
    else if !(env.enableComplianceCheck == some "true") then
      ({ status := 200, success := true, isApproved := some true,
         error := none,
         dataField := some (some { result := some "APPROVED",
                                   message := some "Compliance check is disabled" }),
         details := none }, false)
    else if !(strTruthy env.circleApiKey) then
      ({ status := 500, success := false, isApproved := none,
         error := some "Server configuration error", dataField := none,
         details := none }, false)
    else
      match circle with
      | .transportError =>
          ({ status := 500, success := false, isApproved := none,
             error := some "Internal server error", dataField := none,
             details := none }, true)
      | .response status body =>
        match body with
        | none =>
            ({ status := 500, success := false, isApproved := none,
               error := some "Internal server error", dataField := none,
               details := none }, true)
        | some responseData =>
          if !(fetchOk status) then
            match responseData with
            | none =>
                ({ status := 500, success := false, isApproved := none,
                   error := some "Internal server error", dataField := none,
                   details := none }, true)
            | some b =>
                ({ status := status, success := false, isApproved := none,
                   error := some ("Circle API request failed: " ++ (b.message.getD "")),
                   dataField := none, details := some (some b) }, true)
          else
            ({ status := 200, success := true,
               isApproved := some (match responseData with
                 | none => false
                 | some b => b.result == some "APPROVED"),
               error := none, dataField := some responseData,
               details := none }, true)

/-! The home-page gate, `Home` / `checkCompliance` of the page component. -/

/-- What the client reads out of the parsed route response: the `success`
and `isApproved` fields (the latter absent on error responses). -/
structure ClientResult where
  success : Bool
  isApproved : Option Bool
deriving DecidableEq, Repr

/-- Outcome of the client-side `fetch` to `/api/compliance` followed by
`response.json()`: a parsed result, or a rejection of either await
(DNS/transport failure, malformed body). -/
inductive FetchOutcome where
  | ok (r : ClientResult) : FetchOutcome
  | exn : FetchOutcome
deriving DecidableEq, Repr

/-- The value passed to `setIsCompliant`: `result.success && result.isApproved`,
with an absent `isApproved` being falsy. -/
def clientVerdict (r : ClientResult) : Bool :=
  r.success && r.isApproved.getD false

/-- Effect of one `checkCompliance` invocation resolving on the
`isCompliant` state. The async function has no try/catch: when either await
rejects, `setIsCompliant` is never reached and the state is unchanged. -/
def checkComplianceUpdate (isCompliant : Bool) (resp : FetchOutcome) : Bool :=
  match resp with
  | .ok r => clientVerdict r
  | .exn => isCompliant

/-- Component state of `Home`: the `isCompliant` useState and the wallet
address from `useAccount`. -/
structure HomeState where
  isCompliant : Bool
  address : Option String
deriving DecidableEq, Repr

/-- Initial state: `useState(true)` and no wallet connected. -/
def initialHomeState : HomeState := { isCompliant := true, address := none }

/-- Events of the event loop: a wallet address change (the `useEffect` then
fires `checkCompliance` for the new address), and the arrival of the
response of the call issued for `requestAddr`. -/
inductive HomeEvent where
  | addressChange (a : Option String) : HomeEvent
  | complianceResponse (requestAddr : String) (r : FetchOutcome) : HomeEvent
deriving DecidableEq, Repr

/-- One step of the event loop. The response handler calls `setIsCompliant`
unconditionally: it does not compare `requestAddr` with the current
address. -/
def homeStep (s : HomeState) (e : HomeEvent) : HomeState :=
  match e with
  | .addressChange a => { s with address := a }
  | .complianceResponse _ r =>
      { s with isCompliant := checkComplianceUpdate s.isCompliant r }

/-- Run a sequence of events from the initial state. -/
def homeRun (events : List HomeEvent) : HomeState :=
  events.foldl homeStep initialHomeState

/-- What `Home` renders. -/
inductive Screen where
  | pleaseConnect : Screen
  | marketplaceContent : Screen
  | denied : Screen
deriving DecidableEq, Repr

/-- The JSX: no address (not connected) shows the connect prompt; otherwise
`isCompliant` decides between `RecentlyListedNFTs` and the denial text. -/
def render (s : HomeState) : Screen :=
  match s.address with
  | none => .pleaseConnect
  | some _ => if s.isCompliant then .marketplaceContent else .denied

end CupCake

namespace CupCake

/- sanity check of the reconciler on the scenario of the spec -/
def item1 : NFTItem :=
  { rindexerId := "1", seller := "0xSeller", nftAddress := "0xA", price := "100",
    tokenId := "1", contractAddress := "0xC", txHash := "0xT", blockNumber := "5" }

def item2 : NFTItem :=
  { rindexerId := "2", seller := "0xSeller", nftAddress := "0xA", price := "200",
    tokenId := "2", contractAddress := "0xC", txHash := "0xU", blockNumber := "6" }

example :
    reconcile [item1, item2] [{ nftAddress := "0xA", tokenId := "2" }] [] =
      [project item1] := by decide

/-- Membership in a termination set holds exactly for the key of some event
of the collection whose two fields are both non-empty. -/
theorem mem_terminatedKeys {k : String} {es : List BoughtCancelled} :
    k ∈ terminatedKeys es ↔
      ∃ e, e ∈ es ∧ e.nftAddress ≠ "" ∧ e.tokenId ≠ "" ∧
        mkKey e.nftAddress e.tokenId = k := by
  simp only [terminatedKeys, List.mem_map, List.mem_filter, Bool.and_eq_true,
    Bool.not_eq_true', beq_eq_false_iff_ne, ne_eq]
  constructor
  · rintro ⟨e, ⟨he, ha, ht⟩, hk⟩
    exact ⟨e, he, ha, ht, hk⟩
  · rintro ⟨e, he, ha, ht, hk⟩
    exact ⟨e, ⟨he, ha, ht⟩, hk⟩

/-- Characterisation of the filter predicate. -/
theorem keepListing_iff {B C : List String} {i : NFTItem} :
    keepListing B C i = true ↔
      i.nftAddress ≠ "" ∧ i.tokenId ≠ "" ∧
      mkKey i.nftAddress i.tokenId ∉ B ∧ mkKey i.nftAddress i.tokenId ∉ C := by
  by_cases ha : i.nftAddress = ""
  · simp [keepListing, ha]
  · by_cases ht : i.tokenId = ""
    · simp [keepListing, ha, ht]
    · simp [keepListing, ha, ht, List.contains]

/-- Every output record is the projection of a listed event that survived
the filter. -/
theorem mem_reconcile {r : ActiveListing} {listed : List NFTItem}
    {bought cancelled : List BoughtCancelled}
    (h : r ∈ reconcile listed bought cancelled) :
    ∃ i, i ∈ listed ∧
      keepListing (terminatedKeys bought) (terminatedKeys cancelled) i = true ∧
      project i = r := by
  simp only [reconcile, List.mem_map] at h
  obtain ⟨i, hi, hp⟩ := h
  have hs : i ∈ survivors listed bought cancelled := List.mem_of_mem_take hi
  simp only [survivors, List.mem_filter] at hs
  exact ⟨i, hs.1, hs.2, hp⟩

/-- A listed event whose concatenated key "-x-y" equals the concatenated key
of a bought event that has an empty nftAddress. -/
def collidingListed : NFTItem :=
  { rindexerId := "9", seller := "0xS", nftAddress := "-x", price := "1",
    tokenId := "y", contractAddress := "0xC", txHash := "0xH",
    blockNumber := "7" }

/-- The bought event of the collision: empty nftAddress, tokenId "x-y". -/
def unkeyedBought : BoughtCancelled := { nftAddress := "", tokenId := "x-y" }

/-- C2 counterexample: the key of `collidingListed` appears in a bought
event (the concatenated keys are equal), yet the listing is in the output,
because the bought event has an empty nftAddress and is excluded from the
termination set. The claim, quantified over every input, is therefore false
at this input. -/
theorem active_key_collision_with_unkeyed_bought :
    mkKey unkeyedBought.nftAddress unkeyedBought.tokenId =
      mkKey collidingListed.nftAddress collidingListed.tokenId ∧
    reconcile [collidingListed] [unkeyedBought] [] = [project collidingListed] := by
  exact ⟨rfl, rfl⟩

/-- C2 (amended): every output record is the projection of a listed event
with non-empty fields whose key differs from the key of every bought and
every cancelled event that itself has both fields non-empty (events missing
a field never terminate, even on key collision). -/
theorem active_listing_key_not_terminated
    (listed : List NFTItem) (bought cancelled : List BoughtCancelled)
    (r : ActiveListing) (h : r ∈ reconcile listed bought cancelled) :
    ∃ i, i ∈ listed ∧ project i = r ∧ i.nftAddress ≠ "" ∧ i.tokenId ≠ "" ∧
      (∀ b, b ∈ bought → b.nftAddress ≠ "" → b.tokenId ≠ "" →
        mkKey b.nftAddress b.tokenId ≠ mkKey i.nftAddress i.tokenId) ∧
      (∀ c, c ∈ cancelled → c.nftAddress ≠ "" → c.tokenId ≠ "" →
        mkKey c.nftAddress c.tokenId ≠ mkKey i.nftAddress i.tokenId) := by
  obtain ⟨i, hi, hk, hp⟩ := mem_reconcile h
  rw [keepListing_iff] at hk
  obtain ⟨ha, ht, hb, hc⟩ := hk
  refine ⟨i, hi, hp, ha, ht, ?_, ?_⟩
  · intro b hbm hba hbt heq
    exact hb (mem_terminatedKeys.mpr ⟨b, hbm, hba, hbt, heq⟩)
  · intro c hcm hca hct heq
    exact hc (mem_terminatedKeys.mpr ⟨c, hcm, hca, hct, heq⟩)

/-- Witness for the amended C2 theorem at a concrete input. -/
theorem active_listing_key_not_terminated_witness :
    ∃ i, i ∈ [item1] ∧ project i = project item1 ∧
      i.nftAddress ≠ "" ∧ i.tokenId ≠ "" ∧
      (∀ b, b ∈ ([] : List BoughtCancelled) → b.nftAddress ≠ "" →
        b.tokenId ≠ "" →
        mkKey b.nftAddress b.tokenId ≠ mkKey i.nftAddress i.tokenId) ∧
      (∀ c, c ∈ ([] : List BoughtCancelled) → c.nftAddress ≠ "" →
        c.tokenId ≠ "" →
        mkKey c.nftAddress c.tokenId ≠ mkKey i.nftAddress i.tokenId) :=
  active_listing_key_not_terminated [item1] [] [] (project item1) (by decide)

/-- C5: the output is, in order, a subsequence of the projected `listed`
input, never exceeds 100 records, and with more than 100 survivors it is
exactly the projection of the first 100 survivors, 100 records long. -/
theorem reconcile_order_and_truncation
    (listed : List NFTItem) (bought cancelled : List BoughtCancelled) :
    (reconcile listed bought cancelled).Sublist (listed.map project) ∧
    (reconcile listed bought cancelled).length ≤ 100 ∧
    (100 < (survivors listed bought cancelled).length →
      reconcile listed bought cancelled =
        ((survivors listed bought cancelled).take 100).map project ∧
      (reconcile listed bought cancelled).length = 100) := by
  refine ⟨?_, ?_, ?_⟩
  · exact List.Sublist.map project
      ((List.take_sublist _ _).trans (List.filter_sublist _))
  · simp only [reconcile, List.length_map, List.length_take]
    omega
  · intro h
    refine ⟨rfl, ?_⟩
    simp only [reconcile, List.length_map, List.length_take]
    omega

/-- A listed collection with 101 identical survivors. -/
def manyListed : List NFTItem := List.replicate 101 item1

/-- Witness for C5 at a concrete input with more than 100 survivors. -/
theorem reconcile_order_and_truncation_witness :
    reconcile manyListed [] [] =
      ((survivors manyListed [] []).take 100).map project ∧
    (reconcile manyListed [] []).length = 100 :=
  (reconcile_order_and_truncation manyListed [] []).2.2 (by decide)

/-- C7: no output record has an empty contract address or token id, and a
key belongs to a termination set exactly when it is the key of an event of
that collection with both fields non-empty, so empty-field events are
excluded both from the output and from the terminated-key set. -/
theorem empty_field_events_excluded
    (listed : List NFTItem) (bought cancelled es : List BoughtCancelled) :
    (∀ r, r ∈ reconcile listed bought cancelled →
      r.contractAddress ≠ "" ∧ r.tokenId ≠ "") ∧
    (∀ k, k ∈ terminatedKeys es ↔
      ∃ e, e ∈ es ∧ e.nftAddress ≠ "" ∧ e.tokenId ≠ "" ∧
        mkKey e.nftAddress e.tokenId = k) := by
  constructor
  · intro r hr
    obtain ⟨i, _, hk, hp⟩ := mem_reconcile hr
    rw [keepListing_iff] at hk
    cases hp
    exact ⟨hk.1, hk.2.1⟩
  · intro k
    exact mem_terminatedKeys

/-- Witness for C7 at a concrete input. -/
theorem empty_field_events_excluded_witness :
    (project item1).contractAddress ≠ "" ∧ (project item1).tokenId ≠ "" :=
  (empty_field_events_excluded [item1] [] [] []).1 (project item1) (by decide)

/-- A filler listing with a key distinct from item1 and from every other
filler index. -/
def filler (n : Nat) : NFTItem :=
  { rindexerId := "f", seller := "0xF", nftAddress := "0xF", price := "1",
    tokenId := toString (n + 2), contractAddress := "0xC", txHash := "0xH",
    blockNumber := "1" }

/-- 101 listings: the key of item1 appears exactly twice, at the first and
the last position, with 99 distinct fillers between. -/
def dupHeavyListed : List NFTItem :=
  item1 :: ((List.range 99).map filler ++ [item1])

/-- C9 counterexample: the key of item1 appears twice in `listed` and no
terminating event matches it, yet only one of the two instances appears in
the output: the second falls beyond the 100-entry truncation. -/
theorem duplicate_beyond_truncation_dropped :
    dupHeavyListed.count item1 = 2 ∧
    (reconcile dupHeavyListed [] []).count (project item1) = 1 := by
  exact ⟨rfl, rfl⟩

/-- C9 (amended): duplicates inside `listed` are never deduplicated by the
termination filter (the survivor multiset keeps the full multiplicity), and
both instances reach the output whenever at most 100 events survive. -/
theorem duplicates_not_deduplicated
    (listed : List NFTItem) (bought cancelled : List BoughtCancelled)
    (e : NFTItem)
    (hk : keepListing (terminatedKeys bought) (terminatedKeys cancelled) e
      = true) :
    (survivors listed bought cancelled).count e = listed.count e ∧
    ((survivors listed bought cancelled).length ≤ 100 →
      listed.count e ≤ (reconcile listed bought cancelled).count (project e)) := by
  constructor
  · exact List.count_filter hk
  · intro hlen
    have h1 : (survivors listed bought cancelled).take 100 =
        survivors listed bought cancelled := List.take_of_length_le hlen
    have h2 := List.count_le_count_map (survivors listed bought cancelled)
      project e
    rw [reconcile, h1]
    calc listed.count e
        = (survivors listed bought cancelled).count e :=
          (List.count_filter hk).symm
      _ ≤ _ := h2

/-- Witness for the amended C9 theorem at a concrete input. -/
theorem duplicates_not_deduplicated_witness :
    (survivors [item1, item1] [] []).count item1 = [item1, item1].count item1 ∧
    [item1, item1].count item1 ≤
      (reconcile [item1, item1] [] []).count (project item1) :=
  ⟨(duplicates_not_deduplicated [item1, item1] [] [] item1 (by decide)).1,
   (duplicates_not_deduplicated [item1, item1] [] [] item1 (by decide)).2
     (by decide)⟩

/-- C6: an absent bought or cancelled collection is treated as empty and an
empty listed collection yields an empty output, but an absent listed
collection makes the derivation throw a TypeError instead of yielding an
empty output: the code reads `allItemListeds.nodes` without the optional
chaining it applies to the other two collections. -/
theorem nftDataList_absent_listed_throws :
    nftDataList (some { allItemListeds := none, allItemBoughts := some [],
                        allItemCanceleds := some [] }) =
      .error "TypeError: reading nodes of undefined" ∧
    nftDataList (some { allItemListeds := some [], allItemBoughts := none,
                        allItemCanceleds := none }) = .ok [] ∧
    nftDataList none = .ok [] :=
  ⟨rfl, rfl, rfl⟩

/-- C1: with a connected wallet, a transport failure of the screening fetch
(the await rejects, the exception is uncaught) leaves `isCompliant` at its
initial value `true`, so the gate shows the marketplace: an exception during
evaluation resolves to Approved, not Denied. -/
theorem gate_transport_failure_fails_open :
    render (homeRun [.addressChange (some "0xA"),
                     .complianceResponse "0xA" .exn]) = .marketplaceContent :=
  rfl

/-- C3: the address changes from 0xA to 0xB; the response for 0xB approves,
then the stale response for 0xA (denied) arrives and, with no address guard
in the handler, overwrites it: the final decision reflects the stale 0xA
evaluation, not the one for the connected address 0xB. -/
theorem stale_response_overwrites_current_decision :
    render (homeRun [.addressChange (some "0xA"),
      .addressChange (some "0xB"),
      .complianceResponse "0xB" (.ok { success := true, isApproved := some true }),
      .complianceResponse "0xA" (.ok { success := true, isApproved := some false })])
      = .denied :=
  rfl

/-- C4: immediately after a wallet connects, before any compliance response
has been processed, the gate already renders the marketplace content:
`isCompliant` is initialised to `true`, so content is exposed while the
decision for the current address is still pending. -/
theorem content_rendered_while_decision_pending :
    render (homeRun [.addressChange (some "0xA")]) = .marketplaceContent :=
  rfl

/-- C8: whenever the feature flag is not the string "true", the route
answers any non-empty address with success, isApproved true and HTTP 200,
and makes no call to the screening provider, whatever the provider outcome
would have been. -/
theorem disabled_screening_approves_without_call
    (env : RouteEnv) (addr : String) (circle : CircleOutcome)
    (hdis : env.enableComplianceCheck ≠ some "true") (haddr : addr ≠ "") :
    POST env (some (some addr)) circle =
      ({ status := 200, success := true, isApproved := some true,
         error := none,
         dataField := some (some { result := some "APPROVED",
                                   message := some "Compliance check is disabled" }),
         details := none }, false) := by
  simp [POST, strTruthy, hdis, haddr]

/-- Witness for C8 at a concrete input. -/
theorem disabled_screening_approves_without_call_witness :
    POST { enableComplianceCheck := none, circleApiKey := none }
        (some (some "0xabc")) .transportError =
      ({ status := 200, success := true, isApproved := some true,
         error := none,
         dataField := some (some { result := some "APPROVED",
                                   message := some "Compliance check is disabled" }),
         details := none }, false) :=
  disabled_screening_approves_without_call
    { enableComplianceCheck := none, circleApiKey := none }
    "0xabc" .transportError (by decide) (by decide)

/-- C10: shape invariant of every route response: a success response has
status 200, carries an isApproved boolean and no error field; a failure
response carries an error message, no isApproved field, and a non-2xx
status. -/
theorem route_response_shape_invariant
    (env : RouteEnv) (requestBody : Option (Option String))
    (circle : CircleOutcome) :
    ((POST env requestBody circle).1.success = true →
      (POST env requestBody circle).1.status = 200 ∧
      (POST env requestBody circle).1.isApproved.isSome = true ∧
      (POST env requestBody circle).1.error = none) ∧
    ((POST env requestBody circle).1.success = false →
      ((POST env requestBody circle).1.error).isSome = true ∧
      (POST env requestBody circle).1.isApproved = none ∧
      ¬(200 ≤ (POST env requestBody circle).1.status ∧
        (POST env requestBody circle).1.status < 300)) := by
  rcases requestBody with _ | address
  · simp [POST]
  · rcases circle with _ | ⟨status, body⟩
    · simp only [POST]
      repeat' split
      all_goals simp_all [fetchOk]
    · simp only [POST]
      repeat' split
      all_goals simp_all [fetchOk]
      all_goals omega

/-- Witness for C10 at a concrete input on the success path. -/
theorem route_response_shape_invariant_witness :
    (POST { enableComplianceCheck := some "0", circleApiKey := none }
        (some (some "0xdef")) .transportError).1.status = 200 ∧
    ((POST { enableComplianceCheck := some "0", circleApiKey := none }
        (some (some "0xdef")) .transportError).1.isApproved).isSome = true ∧
    (POST { enableComplianceCheck := some "0", circleApiKey := none }
        (some (some "0xdef")) .transportError).1.error = none :=
  (route_response_shape_invariant
    { enableComplianceCheck := some "0", circleApiKey := none }
    (some (some "0xdef")) .transportError).1 rfl

end CupCake
